import Mathlib

/-!
Verification development for the livekit-rag voice assistant.

The definitions below are a shallow embedding of the repository source:
strings model Python str values, byte buffers are lists of naturals
(each < 256), durations are rationals (seconds), and the external
collaborators (silero VAD, faster-whisper STT, Qdrant retrieval, Groq
LLM, Kokoro TTS) appear as oracle inputs, since the repository only
consumes their results.  Each definition names the source function it
embeds.
-/

namespace LKRag

/-! ### String helpers (Python str operations) -/

/-- Model of Python str.lower restricted to the ASCII mapping of
Char.toLower; every keyword in the configuration is already lower case,
so the two agree on all comparisons made by the source. -/
def lowerStr (s : String) : String := String.mk (s.data.map Char.toLower)

/-- Model of Python str.strip with no argument: drop whitespace from
both ends. -/
def pyStrip (s : String) : String :=
  String.mk (((s.data.dropWhile Char.isWhitespace).reverse.dropWhile
    Char.isWhitespace).reverse)

/-- Model of the Python substring test (kw in text) on character lists:
true iff kw occurs contiguously in text (the empty string occurs in
everything, as in Python). -/
def subList : List Char → List Char → Bool
  | kw, [] => kw.isEmpty
  | kw, c :: rest => kw.isPrefixOf (c :: rest) || subList kw rest

/-- Python: kw in text, for strings. -/
def strIn (kw text : String) : Bool := subList kw.data text.data

/-! ### Configuration (config.py, lines 44-79) -/

def GREETING_KEYWORDS : List String :=
  ["bonjour", "salut", "hello", "hey", "coucou", "bonsoir"]

def THANKS_KEYWORDS : List String :=
  ["merci", "merci beaucoup", "je te remercie", "thank you"]

def GOODBYE_KEYWORDS : List String :=
  ["au revoir", "bye", "salut", "à bientôt", "à plus", "ciao"]

def GREETING_RESPONSES : List String :=
  ["Bonjour! Comment puis-je vous aider?",
   "Bonjour! Je suis l\x27assistant vocal de Harvard. Que puis-je faire pour vous?"]

def THANKS_RESPONSES : List String :=
  ["Je vous en prie!", "Avec plaisir!", "De rien!"]

def GOODBYE_RESPONSES : List String :=
  ["Au revoir! Bonne journée!", "À bientôt!", "Au revoir!"]

def RAG_TOP_K : Nat := 3

def RAG_SCORE_THRESHOLD : ℚ := 7 / 10

/-- Fixed fallback reply returned by LLMStreamer.get_response on any
exception (llm.py line 113). -/
def LLM_FALLBACK : String := "Désolé, une erreur s\x27est produite."

/-! ### ConversationDetector (main.py, lines 58-88) -/

/-- main.py line 64: text.lower().strip(), shared by the three tests. -/
def textLower (text : String) : String := pyStrip (lowerStr text)

/-- ConversationDetector.is_greeting (main.py lines 61-65). -/
def is_greeting (text : String) : Bool :=
  GREETING_KEYWORDS.any (fun kw => strIn kw (textLower text))

/-- ConversationDetector.is_thanks (main.py lines 67-71). -/
def is_thanks (text : String) : Bool :=
  THANKS_KEYWORDS.any (fun kw => strIn kw (textLower text))

/-- ConversationDetector.is_goodbye (main.py lines 73-77). -/
def is_goodbye (text : String) : Bool :=
  GOODBYE_KEYWORDS.any (fun kw => strIn kw (textLower text))

/-- random.choice on a fixed non-empty list, with the random draw made
explicit as an index (every possible outcome is some index modulo the
list length). -/
def pickFrom (l : List String) (idx : Nat) : String := l.getD (idx % l.length) ""

/-- ConversationDetector.get_response (main.py lines 79-88): greeting is
tested first, then thanks, then goodbye; the three random.choice draws
are the explicit indices gIdx, tIdx, bIdx. -/
def get_response (gIdx tIdx bIdx : Nat) (text : String) : Option String :=
  if is_greeting text then some (pickFrom GREETING_RESPONSES gIdx)
  else if is_thanks text then some (pickFrom THANKS_RESPONSES tIdx)
  else if is_goodbye text then some (pickFrom GOODBYE_RESPONSES bIdx)
  else none

/-! ### Retrieval and context formatting (rag.py) -/

/-- One retrieved document: payload text plus similarity score
(rag.py lines 106-112). -/
structure Doc where
  text : String
  score : ℚ
deriving DecidableEq

/-- Loop body of RAGRetriever.format_context (rag.py lines 134-138):
enumerate(documents, 1), keep documents whose stripped text is
non-empty, label each with its 1-based position in the input list. -/
def contextParts : List Doc → Nat → List String
  | [], _ => []
  | d :: ds, i =>
      if pyStrip d.text = "" then contextParts ds (i + 1)
      else ("[Document " ++ toString i ++ "]: " ++ pyStrip d.text) :: contextParts ds (i + 1)

/-- RAGRetriever.format_context (rag.py lines 121-140). -/
def format_context (documents : List Doc) : String :=
  if documents = [] then "" else String.intercalate "\n\n" (contextParts documents 1)

/-- Modelled from the spec: the Qdrant vector search itself is an
external collaborator (the repository only passes limit and
score_threshold to qdrant_client.search, rag.py lines 98-103); spec
section 6 gives its parameter semantics as retrieve(text, topK,
scoreThreshold) returning only results whose score reaches the
threshold, at most topK of them.  The candidate result list is the
oracle input. -/
def searchQdrant (corpus : List Doc) : List Doc :=
  (corpus.filter (fun d => RAG_SCORE_THRESHOLD ≤ d.score)).take RAG_TOP_K

/-- RAGRetriever.retrieve error path (rag.py lines 90-119): any
exception from embedding or search is caught and an empty list is
returned; on success the search results are passed through. -/
def retrieve (r : Except Unit (List Doc)) : List Doc :=
  match r with
  | .error _ => []
  | .ok ds => ds

/-! ### External collaborator models (stt.py, llm.py, tts.py) -/

/-- SpeechToText.transcribe and transcribe_stream (stt.py lines 33-94):
the oracle input is the whisper result, the joined segment text, or an
exception.  Any exception yields None; an empty joined text yields
None; otherwise the stripped text is returned (stt.py line 59). -/
def transcribe_stream (r : Except Unit String) : Option String :=
  match r with
  | .error _ => none
  | .ok raw => if raw = "" then none else some (pyStrip raw)

/-- LLMStreamer.get_response (llm.py lines 73-113): returns the model
completion, or the fixed fallback string on any exception. -/
def llm_get_response (r : Except Unit String) : String :=
  match r with
  | .error _ => LLM_FALLBACK
  | .ok s => s

/-- Python truthiness guard on the synthesized audio
(main.py line 227): egress happens only for a non-None, non-empty
byte string. -/
def egressOf (a : Option (List Nat)) : Option (List Nat) :=
  match a with
  | none => none
  | some bs => if bs = [] then none else some bs

/-- Fixed outcomes of the external collaborators for one session, plus
the explicit random draws of ConversationDetector.get_response.  The
TTS collaborator is a function of the text it is asked to synthesize
(tts.py synthesize: WAV bytes or None on failure). -/
structure Collabs where
  sttRaw : Except Unit String
  ragDocs : Except Unit (List Doc)
  llmReply : Except Unit String
  ttsAudio : String → Option (List Nat)
  gIdx : Nat
  tIdx : Nat
  bIdx : Nat

/-! ### One turn: process_speech (main.py lines 172-240) -/

/-- RAG gate keywords hard-coded at main.py line 211. -/
def RAG_TRIGGER_KEYWORDS : List String :=
  ["harvard", "université", "campus", "programme", "étudiant"]

/-- main.py line 211: retrieval is attempted only when the lowercased
transcription contains one of the trigger keywords. -/
def needsRag (transcription : String) : Bool :=
  RAG_TRIGGER_KEYWORDS.any (fun kw => strIn kw (lowerStr transcription))

/-- Observable outcome of one process_speech call. -/
structure TurnResult where
  transcription : Option String
  quick : Option String
  retrievalCalled : Bool
  llmCalled : Bool
  responseText : Option String
  egressAudio : Option (List Nat)
deriving DecidableEq

/-- Outcome of a turn that aborted before producing a reply. -/
def emptyTurn : TurnResult :=
  { transcription := none, quick := none, retrievalCalled := false,
    llmCalled := false, responseText := none, egressAudio := none }

/-- process_speech (main.py lines 172-240).  The buffer is the list of
collected frame byte strings; b-join, WAV encoding and the whisper call
are summarized by the transcribe_stream oracle.  Empty buffer returns
immediately (line 177); falsy transcription returns with no reply
(line 196); a conversation cue takes the canned response and skips
retrieval and generation (lines 203-207); otherwise retrieval runs only
under the keyword gate (line 211) with exceptions swallowed, and the
LLM reply (or its internal fallback) is synthesized and emitted when
synthesis yields non-empty audio (lines 225-230). -/
def process_speech (c : Collabs) (buffer : List (List Nat)) : TurnResult :=
  if buffer = [] then emptyTurn
  else
    match transcribe_stream c.sttRaw with
    | none => emptyTurn
    | some s =>
        if s = "" then emptyTurn
        else
          match get_response c.gIdx c.tIdx c.bIdx s with
          | some q =>
              { transcription := some s, quick := some q, retrievalCalled := false,
                llmCalled := false, responseText := some q,
                egressAudio := egressOf (c.ttsAudio q) }
          | none =>
              let callRag := needsRag s
              let reply := llm_get_response c.llmReply
              { transcription := some s, quick := none, retrievalCalled := callRag,
                llmCalled := true, responseText := some reply,
                egressAudio := egressOf (c.ttsAudio reply) }

/-! ### The frame loop: process_audio_stream (main.py lines 242-275)

Python float arithmetic on durations is modelled as exact rational
arithmetic; the silero verdict for each incoming frame is carried on
the frame itself, since the VAD model is an external collaborator. -/

/-- One inbound audio frame: its raw 16-bit PCM byte string, the
silero speech verdict for it, and its sample rate. -/
structure Frame where
  data : List Nat
  speech : Bool
  sampleRate : Nat
deriving DecidableEq

/-- The nonlocal mutable state of the loop (main.py lines 163-166):
audio_buffer, is_speaking, silence_duration. -/
structure SessionState where
  buffer : List (List Nat)
  isSpeaking : Bool
  silenceDur : ℚ
deriving DecidableEq

/-- Initial loop state (main.py lines 164-166), also the state
restored by the finally block of process_speech (lines 236-240). -/
def initState : SessionState := { buffer := [], isSpeaking := false, silenceDur := 0 }

/-- SILENCE_THRESHOLD = 1.5 seconds (main.py line 167). -/
def SILENCE_THRESHOLD : ℚ := 3 / 2

/-- Number of int16 samples in a frame byte string
(main.py line 254: np.frombuffer with dtype int16). -/
def frameSamples (f : Frame) : Nat := f.data.length / 2

/-- len(audio_data) / audio_frame.sample_rate (main.py line 267). -/
def frameDur (f : Frame) : ℚ := (frameSamples f : ℚ) / (f.sampleRate : ℚ)

/-- Observable events of one session, marking the start and end of a
ResponsePipeline invocation (the transcribe-retrieve-generate-
synthesize sequence inside process_speech) and of an AudioEgress job
(the capture_frame call emitting the reply). -/
inductive Event where
  | pipelineStart
  | pipelineEnd
  | egressStart
  | egressEnd
deriving DecidableEq

/-- Events emitted by one process_speech call: the pipeline is invoked
iff the buffer is non-empty (main.py line 177), and an egress job runs
iff synthesis produced non-empty audio (main.py lines 227-229).  The
source awaits each step before the next frame is read, so the events
of one call are contiguous in the session trace. -/
def turnEvents (c : Collabs) (buffer : List (List Nat)) : List Event :=
  if buffer = [] then []
  else
    [Event.pipelineStart, Event.pipelineEnd] ++
      (match (process_speech c buffer).egressAudio with
        | some _ => [Event.egressStart, Event.egressEnd]
        | none => [])

/-- One iteration of the async-for loop (main.py lines 250-273).
On a speech verdict: mark speaking, zero the silence clock, append the
frame (lines 261-264).  On silence while speaking: grow the silence
clock, append the frame, and once the clock reaches the threshold run
process_speech to completion — its finally block restores the initial
state (lines 265-273 and 236-240).  On silence while not speaking:
nothing changes. -/
def stepFrame (c : Collabs) (s : SessionState) (f : Frame) : SessionState × List Event :=
  if f.speech then
    ({ buffer := s.buffer ++ [f.data], isSpeaking := true, silenceDur := 0 }, [])
  else if s.isSpeaking then
    let sd := s.silenceDur + frameDur f
    let buf := s.buffer ++ [f.data]
    if SILENCE_THRESHOLD ≤ sd then (initState, turnEvents c buf)
    else ({ buffer := buf, isSpeaking := true, silenceDur := sd }, [])
  else (s, [])

/-- Event trace of a whole frame sequence.  The loop is sequential:
each frame is fully handled (including any awaited process_speech
call) before the next one is read. -/
def runTrace (c : Collabs) : SessionState → List Frame → List Event
  | _, [] => []
  | s, f :: fs => (stepFrame c s f).2 ++ runTrace c (stepFrame c s f).1 fs

/-- Final loop state after a frame sequence. -/
def runState (c : Collabs) : SessionState → List Frame → SessionState
  | s, [] => s
  | s, f :: fs => runState c (stepFrame c s f).1 fs

/-! ### Segment buffering (main.py lines 177-191, 261-268) -/

/-- audio_buffer.append(audio_frame.data) (main.py lines 264 and 268):
the only way the source grows the buffer. -/
def addFrame (buffer : List (List Nat)) (data : List Nat) : List (List Nat) :=
  buffer ++ [data]

/-- Total number of buffered int16 samples. -/
def bufferedSamples (buffer : List (List Nat)) : Nat :=
  (buffer.map (fun d => d.length / 2)).sum

/-- Total buffered duration in seconds at a given sample rate. -/
def bufferedDur (rate : Nat) (buffer : List (List Nat)) : ℚ :=
  (bufferedSamples buffer : ℚ) / (rate : ℚ)

/-! ### WAV container (main.py lines 105-119 and 180-191)

The wave module, for the parameters the source sets (mono, 2-byte
samples, rate 24000), writes a 44-byte header followed by the raw
sample data; wav_to_audio_frame reads the data chunk back with
readframes(getnframes()). -/

/-- Two little-endian bytes. -/
def le16 (n : Nat) : List Nat := [n % 256, n / 256 % 256]

/-- Four little-endian bytes. -/
def le32 (n : Nat) : List Nat :=
  [n % 256, n / 256 % 256, n / 256 ^ 2 % 256, n / 256 ^ 3 % 256]

/-- The 44-byte RIFF/WAVE header the wave module writes for
setnchannels(1), setsampwidth(2), setframerate(24000)
(main.py lines 185-189): RIFF tag, riff size, WAVE tag, fmt chunk
(PCM, mono, rate 24000, byte rate 48000, block align 2, 16 bits),
data tag, data size. -/
def wavHeader (dataLen : Nat) : List Nat :=
  [82, 73, 70, 70] ++ le32 (36 + dataLen) ++ [87, 65, 86, 69] ++
  [102, 109, 116, 32] ++ le32 16 ++ le16 1 ++ le16 1 ++ le32 24000 ++
  le32 48000 ++ le16 2 ++ le16 16 ++ [100, 97, 116, 97] ++ le32 dataLen

/-- WAV encoding of a byte string (main.py lines 184-191). -/
def wavEncode (d : List Nat) : List Nat := wavHeader d.length ++ d

/-- Little-endian 32-bit read. -/
def readLE32 (bs : List Nat) : Nat :=
  bs.getD 0 0 + 256 * bs.getD 1 0 + 256 ^ 2 * bs.getD 2 0 + 256 ^ 3 * bs.getD 3 0

/-- wav_to_audio_frame decode (main.py lines 108-111): read the data
chunk size from the header and return that many bytes after the
44-byte header. -/
def wavDecode (bs : List Nat) : List Nat :=
  (bs.drop 44).take (readLE32 (bs.drop 40))

/-- Sealing the collected segment (main.py lines 177-191): nothing is
produced for an empty buffer; otherwise the buffered frames are
concatenated in order (b-join, line 181) and wrapped in the WAV
container. -/
def sealAndGet (buffer : List (List Nat)) : Option (List Nat) :=
  if buffer = [] then none else some (wavEncode buffer.flatten)

/-! ### Shared concrete values used in witnesses and counterexamples -/

/-- Collaborator bundle whose outcomes are never reached (used where a
step does not invoke them). -/
def trivCollabs : Collabs :=
  { sttRaw := .error (), ragDocs := .error (), llmReply := .error (),
    ttsAudio := fun _ => none, gIdx := 0, tIdx := 0, bIdx := 0 }

/-- A one-second frame (two bytes, one int16 sample, sample rate 1)
classified speech by the external VAD. -/
def spFrame : Frame := { data := [0, 0], speech := true, sampleRate := 1 }

/-- A one-second frame classified silence by the external VAD. -/
def silFrame : Frame := { data := [0, 0], speech := false, sampleRate := 1 }

/-! ### Helper lemmas -/

theorem mem_pickFrom (l : List String) (i : Nat) (h : l ≠ []) : pickFrom l i ∈ l := by
  have hlt : i % l.length < l.length := Nat.mod_lt _ (List.length_pos.mpr h)
  unfold pickFrom
  rw [List.getD_eq_getElem _ _ hlt]
  exact List.getElem_mem hlt

theorem contextParts_eq (docs : List Doc) : ∀ i, contextParts docs i =
    (docs.enumFrom i).filterMap (fun p =>
      if pyStrip p.2.text = "" then none
      else some ("[Document " ++ toString p.1 ++ "]: " ++ pyStrip p.2.text)) := by
  induction docs with
  | nil => intro i; simp [contextParts]
  | cons d ds IH =>
      intro i
      by_cases h : pyStrip d.text = "" <;>
        simp [contextParts, List.enumFrom, h, IH (i + 1)]

theorem contextParts_nil_of_blank (docs : List Doc) (h : ∀ d ∈ docs, pyStrip d.text = "") :
    ∀ i, contextParts docs i = [] := by
  induction docs with
  | nil => intro i; simp [contextParts]
  | cons d ds IH =>
      intro i
      have hd : pyStrip d.text = "" := h d (by simp)
      simp only [contextParts, if_pos hd]
      exact IH (fun x hx => h x (by simp [hx])) (i + 1)

/-! ### Claim theorems -/

/-- Claim C8: formatting a list of retrieved documents returns the non-blank
document texts, each labelled with its numbered Document prefix, joined
into one string; the context is empty when no document qualifies —
empty input list, every text blank, or (via the score_threshold passed
to the external search, modelled by searchQdrant) no score reaching the
threshold. -/
theorem format_context_numbered :
    (∀ documents : List Doc,
      format_context documents = String.intercalate "\n\n"
        ((documents.enumFrom 1).filterMap (fun p =>
          if pyStrip p.2.text = "" then none
          else some ("[Document " ++ toString p.1 ++ "]: " ++ pyStrip p.2.text)))) ∧
    (∀ documents : List Doc, (∀ d ∈ documents, pyStrip d.text = "") →
      format_context documents = "") ∧
    (∀ corpus : List Doc, (∀ d ∈ corpus, d.score < RAG_SCORE_THRESHOLD) →
      format_context (searchQdrant corpus) = "") := by
  have hblank : ∀ documents : List Doc, (∀ d ∈ documents, pyStrip d.text = "") →
      format_context documents = "" := by
    intro documents h
    unfold format_context
    rw [contextParts_nil_of_blank documents h 1]
    split <;> rfl
  refine ⟨?_, hblank, ?_⟩
  · intro documents
    unfold format_context
    rw [contextParts_eq]
    rcases documents with _ | ⟨d, ds⟩
    · decide
    · simp
  · intro corpus h
    have hnil : corpus.filter (fun d => decide (RAG_SCORE_THRESHOLD ≤ d.score)) = [] := by
      rw [List.filter_eq_nil_iff]
      intro d hd
      simpa using not_le.mpr (h d hd)
    unfold searchQdrant
    rw [hnil]
    rfl

/-- Witness for C8: a single whitespace-only document formats to the
empty context, and a corpus whose only score is below the threshold
yields an empty context after the thresholded search. -/
theorem format_context_numbered_witness :
    format_context [{ text := "   ", score := 1 }] = "" ∧
    format_context (searchQdrant [{ text := "harvard", score := 0 }]) = "" := by
  constructor
  · exact format_context_numbered.2.1 [{ text := "   ", score := 1 }]
      (by intro d hd; simp at hd; subst hd; decide)
  · exact format_context_numbered.2.2 [{ text := "harvard", score := 0 }]
      (by intro d hd; simp at hd; subst hd; norm_num [RAG_SCORE_THRESHOLD])

/-- Claim C10: get_response tests greeting, then thanks, then goodbye, by
case-insensitive substring containment, so a text containing salut —
present in both the greeting and the goodbye keyword lists — always
yields a greeting response (for every random draw) and never a goodbye
response. -/
theorem salut_greeting_priority :
    ∀ (text : String) (gIdx tIdx bIdx : Nat),
      strIn "salut" (textLower text) = true →
      get_response gIdx tIdx bIdx text = some (pickFrom GREETING_RESPONSES gIdx) ∧
      pickFrom GREETING_RESPONSES gIdx ∈ GREETING_RESPONSES ∧
      pickFrom GREETING_RESPONSES gIdx ∉ GOODBYE_RESPONSES := by
  intro text gIdx tIdx bIdx h
  have hg : is_greeting text = true := by
    unfold is_greeting
    rw [List.any_eq_true]
    exact ⟨"salut", by decide, h⟩
  have hmem : pickFrom GREETING_RESPONSES gIdx ∈ GREETING_RESPONSES :=
    mem_pickFrom _ _ (by decide)
  refine ⟨by simp [get_response, hg], hmem, ?_⟩
  have hdisj : ∀ x ∈ GREETING_RESPONSES, x ∉ GOODBYE_RESPONSES := by decide
  exact hdisj _ hmem

/-- Witness for C10: the text Salut! (which also matches the goodbye
keyword list) gets a greeting response, never a goodbye one. -/
theorem salut_greeting_priority_witness :
    get_response 1 0 0 "Salut!" = some (pickFrom GREETING_RESPONSES 1) ∧
    pickFrom GREETING_RESPONSES 1 ∈ GREETING_RESPONSES ∧
    pickFrom GREETING_RESPONSES 1 ∉ GOODBYE_RESPONSES :=
  salut_greeting_priority "Salut!" 1 0 0 (by decide)

/-- Whenever process_speech fires inside the frame loop (a silent frame
while speaking pushes the silence clock past the threshold), the finally
block leaves the loop in the initial state: buffer emptied, is_speaking
false, silence clock zero.  Shared step-level fact used by several
claim theorems below. -/
theorem stepFrame_reset (c : Collabs) (s : SessionState) (f : Frame)
    (hf : f.speech = false) (hsp : s.isSpeaking = true)
    (hth : SILENCE_THRESHOLD ≤ s.silenceDur + frameDur f) :
    (stepFrame c s f).1 = initState := by
  unfold stepFrame
  rw [if_neg (by simp [hf]), if_pos hsp, if_pos hth]

/-- Claim C6: a turn whose transcription is empty or whitespace-only produces
no reply at all — no conversation-cue check result, no retrieval, no
generation, no synthesis, no egress (the whole turn result equals the
aborted turn) — and the loop state is reset to idle after the turn. -/
theorem blank_transcription_no_reply :
    (∀ (c : Collabs) (buffer : List (List Nat)) (raw : String),
      c.sttRaw = .ok raw → pyStrip raw = "" →
      process_speech c buffer = emptyTurn) ∧
    (∀ (c : Collabs) (s : SessionState) (f : Frame),
      f.speech = false → s.isSpeaking = true →
      SILENCE_THRESHOLD ≤ s.silenceDur + frameDur f →
      (stepFrame c s f).1 = initState) := by
  refine ⟨?_, stepFrame_reset⟩
  intro c buffer raw hstt hblank
  have ht : transcribe_stream c.sttRaw = none ∨ transcribe_stream c.sttRaw = some "" := by
    rw [hstt]
    unfold transcribe_stream
    by_cases hr : raw = ""
    · simp [hr]
    · simp [hr, hblank]
  unfold process_speech
  rcases ht with ht | ht <;> simp [ht]

/-- Witness for C6: a whisper result of three spaces (whitespace-only)
aborts the turn with no reply, and a turn-completing step resets the
loop state. -/
theorem blank_transcription_no_reply_witness :
    process_speech
      { sttRaw := .ok "   ", ragDocs := .ok [], llmReply := .ok "x",
        ttsAudio := fun _ => some [1], gIdx := 0, tIdx := 0, bIdx := 0 }
      [[1, 2]] = emptyTurn ∧
    (stepFrame trivCollabs { buffer := [[0, 0]], isSpeaking := true, silenceDur := 1 }
      silFrame).1 = initState := by
  constructor
  · exact blank_transcription_no_reply.1 _ [[1, 2]] "   " rfl (by decide)
  · exact blank_transcription_no_reply.2 trivCollabs _ silFrame rfl rfl
      (by norm_num [silFrame, frameDur, frameSamples, SILENCE_THRESHOLD])

/-- A non-blank transcription whose collaborator oracle is fixed: the
turn reaches the conversation-cue check. -/
theorem process_speech_nonblank (c : Collabs) (buffer : List (List Nat)) (s : String)
    (hbuf : buffer ≠ []) (hstt : transcribe_stream c.sttRaw = some s) (hs : s ≠ "") :
    process_speech c buffer =
      match get_response c.gIdx c.tIdx c.bIdx s with
      | some q =>
          { transcription := some s, quick := some q, retrievalCalled := false,
            llmCalled := false, responseText := some q,
            egressAudio := egressOf (c.ttsAudio q) }
      | none =>
          { transcription := some s, quick := none, retrievalCalled := needsRag s,
            llmCalled := true, responseText := some (llm_get_response c.llmReply),
            egressAudio := egressOf (c.ttsAudio (llm_get_response c.llmReply)) } := by
  unfold process_speech
  rw [if_neg hbuf, hstt]
  simp only [if_neg hs]

/-- Claim C7 counterexample: the transcription "quelle heure" is non-blank and
matches no conversational keyword set, yet the retrieval collaborator is
NOT queried (the generation collaborator is invoked directly), because
main.py line 211 gates retrieval behind a hard-coded domain keyword
list — contradicting the claim that every non-canned text is sent to
retrieval. -/
theorem retrieval_gate_cex :
    (process_speech
      { sttRaw := .ok "quelle heure", ragDocs := .ok [{ text := "doc", score := 1 }],
        llmReply := .ok "il est midi", ttsAudio := fun _ => some [3],
        gIdx := 0, tIdx := 0, bIdx := 0 } [[1, 2]]).transcription = some "quelle heure" ∧
    (process_speech
      { sttRaw := .ok "quelle heure", ragDocs := .ok [{ text := "doc", score := 1 }],
        llmReply := .ok "il est midi", ttsAudio := fun _ => some [3],
        gIdx := 0, tIdx := 0, bIdx := 0 } [[1, 2]]).quick = none ∧
    (process_speech
      { sttRaw := .ok "quelle heure", ragDocs := .ok [{ text := "doc", score := 1 }],
        llmReply := .ok "il est midi", ttsAudio := fun _ => some [3],
        gIdx := 0, tIdx := 0, bIdx := 0 } [[1, 2]]).retrievalCalled = false ∧
    (process_speech
      { sttRaw := .ok "quelle heure", ragDocs := .ok [{ text := "doc", score := 1 }],
        llmReply := .ok "il est midi", ttsAudio := fun _ => some [3],
        gIdx := 0, tIdx := 0, bIdx := 0 } [[1, 2]]).llmCalled = true := by
  refine ⟨?_, ?_, ?_, ?_⟩ <;> decide

/-- Claim C7 as amended: a non-blank transcription matching a conversational
keyword set gets the canned response with neither retrieval nor
generation invoked ("merci beaucoup" takes the thanks fast path for
every random draw); otherwise the retrieval collaborator is queried
only when the lowercased text contains one of the hard-coded domain
keywords (harvard, université, campus, programme, étudiant), and
generation is always invoked. -/
theorem fast_path_and_rag_gate :
    (∀ (c : Collabs) (buffer : List (List Nat)) (s q : String),
      buffer ≠ [] → transcribe_stream c.sttRaw = some s → s ≠ "" →
      get_response c.gIdx c.tIdx c.bIdx s = some q →
      (process_speech c buffer).responseText = some q ∧
      (process_speech c buffer).retrievalCalled = false ∧
      (process_speech c buffer).llmCalled = false) ∧
    (∀ (c : Collabs) (buffer : List (List Nat)) (s : String),
      buffer ≠ [] → transcribe_stream c.sttRaw = some s → s ≠ "" →
      get_response c.gIdx c.tIdx c.bIdx s = none →
      (process_speech c buffer).retrievalCalled = needsRag s ∧
      (process_speech c buffer).llmCalled = true) ∧
    (∀ gIdx tIdx bIdx : Nat,
      get_response gIdx tIdx bIdx "merci beaucoup" = some (pickFrom THANKS_RESPONSES tIdx) ∧
      pickFrom THANKS_RESPONSES tIdx ∈ THANKS_RESPONSES) := by
  refine ⟨?_, ?_, ?_⟩
  · intro c buffer s q hbuf hstt hs hq
    rw [process_speech_nonblank c buffer s hbuf hstt hs, hq]
    exact ⟨rfl, rfl, rfl⟩
  · intro c buffer s hbuf hstt hs hq
    rw [process_speech_nonblank c buffer s hbuf hstt hs, hq]
    exact ⟨rfl, rfl⟩
  · intro gIdx tIdx bIdx
    have hg : is_greeting "merci beaucoup" = false := by decide
    have ht : is_thanks "merci beaucoup" = true := by decide
    exact ⟨by simp [get_response, hg, ht], mem_pickFrom _ _ (by decide)⟩

/-- Witness for C7 (amended): the transcription "merci beaucoup" takes
the thanks fast path — canned reply, no retrieval, no generation — and
the transcription "combien coûte le programme" (domain keyword
programme) goes through retrieval and generation. -/
theorem fast_path_and_rag_gate_witness :
    (process_speech
      { sttRaw := .ok "merci beaucoup", ragDocs := .ok [], llmReply := .ok "x",
        ttsAudio := fun _ => some [1], gIdx := 0, tIdx := 2, bIdx := 0 }
      [[1, 2]]).responseText = some (pickFrom THANKS_RESPONSES 2) ∧
    (process_speech
      { sttRaw := .ok "merci beaucoup", ragDocs := .ok [], llmReply := .ok "x",
        ttsAudio := fun _ => some [1], gIdx := 0, tIdx := 2, bIdx := 0 }
      [[1, 2]]).retrievalCalled = false ∧
    (process_speech
      { sttRaw := .ok "merci beaucoup", ragDocs := .ok [], llmReply := .ok "x",
        ttsAudio := fun _ => some [1], gIdx := 0, tIdx := 2, bIdx := 0 }
      [[1, 2]]).llmCalled = false ∧
    (process_speech
      { sttRaw := .ok "combien coûte le programme", ragDocs := .ok [], llmReply := .ok "x",
        ttsAudio := fun _ => some [1], gIdx := 0, tIdx := 0, bIdx := 0 }
      [[1, 2]]).retrievalCalled = needsRag "combien coûte le programme" := by
  have h1 := fast_path_and_rag_gate.1
    { sttRaw := .ok "merci beaucoup", ragDocs := .ok [], llmReply := .ok "x",
      ttsAudio := fun _ => some [1], gIdx := 0, tIdx := 2, bIdx := 0 }
    [[1, 2]] "merci beaucoup" (pickFrom THANKS_RESPONSES 2)
    (by decide) (by decide) (by decide)
    ((fast_path_and_rag_gate.2.2 0 2 0).1)
  have h2 := fast_path_and_rag_gate.2.1
    { sttRaw := .ok "combien coûte le programme", ragDocs := .ok [], llmReply := .ok "x",
      ttsAudio := fun _ => some [1], gIdx := 0, tIdx := 0, bIdx := 0 }
    [[1, 2]] "combien coûte le programme" (by decide) (by decide) (by decide) (by decide)
  exact ⟨h1.1, h1.2.1, h1.2.2, h2.1⟩

/-- Claim C5 counterexample: a turn in which the STT collaborator throws (the
oracle is an exception, which transcribe_stream swallows into None)
resolves to NO spoken utterance at all — no response text, no egress —
rather than the fixed apology the claim requires for every collaborator
failure. -/
theorem stt_failure_silent_cex :
    (process_speech
      { sttRaw := .error (), ragDocs := .ok [], llmReply := .ok "réponse",
        ttsAudio := fun _ => some [9], gIdx := 0, tIdx := 0, bIdx := 0 }
      [[1, 2]]).responseText = none ∧
    (process_speech
      { sttRaw := .error (), ragDocs := .ok [], llmReply := .ok "réponse",
        ttsAudio := fun _ => some [9], gIdx := 0, tIdx := 0, bIdx := 0 }
      [[1, 2]]).egressAudio = none := by
  exact ⟨by decide, by decide⟩

/-- Claim C5 as amended: only a generation-collaborator failure resolves the
turn to the fixed apology utterance (spoken if synthesis succeeds); an
STT failure aborts the turn silently, a retrieval failure is swallowed
(generation still runs), and a synthesis failure emits nothing.  In
every case the loop is reset after the turn (back to idle, never stuck
in processing) and no failure escapes the turn. -/
theorem generation_failure_apology :
    (∀ (c : Collabs) (buffer : List (List Nat)) (s : String),
      buffer ≠ [] → transcribe_stream c.sttRaw = some s → s ≠ "" →
      get_response c.gIdx c.tIdx c.bIdx s = none → c.llmReply = .error () →
      (process_speech c buffer).responseText = some LLM_FALLBACK ∧
      (process_speech c buffer).egressAudio = egressOf (c.ttsAudio LLM_FALLBACK)) ∧
    (∀ (c : Collabs) (s : SessionState) (f : Frame),
      f.speech = false → s.isSpeaking = true →
      SILENCE_THRESHOLD ≤ s.silenceDur + frameDur f →
      (stepFrame c s f).1 = initState) := by
  refine ⟨?_, stepFrame_reset⟩
  intro c buffer s hbuf hstt hs hq hllm
  rw [process_speech_nonblank c buffer s hbuf hstt hs, hq]
  simp [llm_get_response, hllm]

/-- Witness for C5 (amended): with a working STT and TTS but a throwing
LLM collaborator, the turn speaks the fixed apology, and a
turn-completing step resets the loop state. -/
theorem generation_failure_apology_witness :
    (process_speech
      { sttRaw := .ok "quelle heure", ragDocs := .ok [], llmReply := .error (),
        ttsAudio := fun _ => some [7], gIdx := 0, tIdx := 0, bIdx := 0 }
      [[1, 2]]).responseText = some LLM_FALLBACK ∧
    (process_speech
      { sttRaw := .ok "quelle heure", ragDocs := .ok [], llmReply := .error (),
        ttsAudio := fun _ => some [7], gIdx := 0, tIdx := 0, bIdx := 0 }
      [[1, 2]]).egressAudio = some [7] ∧
    (stepFrame trivCollabs { buffer := [[0, 0], [0, 0]], isSpeaking := true, silenceDur := 1 }
      silFrame).1 = initState := by
  have h := generation_failure_apology.1
    { sttRaw := .ok "quelle heure", ragDocs := .ok [], llmReply := .error (),
      ttsAudio := fun _ => some [7], gIdx := 0, tIdx := 0, bIdx := 0 }
    [[1, 2]] "quelle heure" (by decide) (by decide) (by decide) (by decide) rfl
  refine ⟨h.1, ?_, ?_⟩
  · rw [h.2]; decide
  · exact generation_failure_apology.2 trivCollabs _ silFrame rfl rfl
      (by norm_num [silFrame, frameDur, frameSamples, SILENCE_THRESHOLD])

/-- Claim C2 counterexample: the source has no buffer ceiling at all.  Feeding
twenty one-second speech frames — twice the ten-second cap the spec
gives as its example — leaves all twenty seconds buffered, not the most
recent ten. -/
theorem buffer_unbounded_cex :
    (runState trivCollabs initState (List.replicate 20 spFrame)).buffer =
      List.replicate 20 [0, 0] ∧
    bufferedDur 1 (runState trivCollabs initState (List.replicate 20 spFrame)).buffer = 20 ∧
    ¬ bufferedDur 1 (runState trivCollabs initState (List.replicate 20 spFrame)).buffer ≤ 10 := by
  have hb : (runState trivCollabs initState (List.replicate 20 spFrame)).buffer =
      List.replicate 20 [0, 0] := by decide
  have hs : bufferedSamples (List.replicate 20 [0, 0]) = 20 := by decide
  refine ⟨hb, ?_, ?_⟩ <;> rw [hb] <;> norm_num [bufferedDur, hs]

/-- Claim C2 as amended: the frame loop never evicts buffered audio — each
step either appends the newest frame to the buffer, clears it wholly
when a turn fires, or leaves it unchanged — and accumulating frames is
pure appending, so every fed frame is retained in arrival order until
the next turn completes, with no maximum duration. -/
theorem buffer_never_evicts :
    (∀ (c : Collabs) (s : SessionState) (f : Frame),
      (stepFrame c s f).1.buffer = addFrame s.buffer f.data ∨
      (stepFrame c s f).1.buffer = [] ∨
      (stepFrame c s f).1.buffer = s.buffer) ∧
    (∀ (init ds : List (List Nat)), List.foldl addFrame init ds = init ++ ds) := by
  constructor
  · intro c s f
    by_cases h1 : f.speech = true
    · simp [stepFrame, h1, addFrame]
    · by_cases h2 : s.isSpeaking = true
      · by_cases h3 : SILENCE_THRESHOLD ≤ s.silenceDur + frameDur f
        · simp [stepFrame, h1, h2, h3, initState]
        · simp [stepFrame, h1, h2, h3, addFrame]
      · simp [stepFrame, h1, h2]
  · intro init ds
    induction ds generalizing init with
    | nil => simp
    | cons d ds IH => simp [List.foldl_cons, addFrame, IH, List.append_assoc]

/-- Claim C3 counterexample: from the idle initial state, a single frame
classified speech by the external VAD flips is_speaking to true at
once — not after the claimed three (speechOnsetFrames) consecutive
above-threshold frames.  No onset counter exists in the source. -/
theorem vad_onset_single_frame_cex :
    initState.isSpeaking = false ∧
    (stepFrame trivCollabs initState spFrame).1.isSpeaking = true :=
  ⟨rfl, by decide⟩

/-- Claim C3 as amended: is_speaking becomes true immediately on the first
frame the external VAD classifies speech (which also zeroes the silence
clock, making accumulated silence consecutive); while not speaking a
silent frame changes nothing; and while speaking it becomes false
exactly when the accumulated consecutive silence reaches the 1.5-second
threshold (whereupon the turn fires and the state resets). -/
theorem vad_flag_dynamics :
    (∀ (c : Collabs) (s : SessionState) (f : Frame),
      f.speech = true →
      (stepFrame c s f).1.isSpeaking = true ∧ (stepFrame c s f).1.silenceDur = 0) ∧
    (∀ (c : Collabs) (s : SessionState) (f : Frame),
      f.speech = false → s.isSpeaking = false → (stepFrame c s f).1 = s) ∧
    (∀ (c : Collabs) (s : SessionState) (f : Frame),
      f.speech = false → s.isSpeaking = true →
      ((stepFrame c s f).1.isSpeaking = false ↔
        SILENCE_THRESHOLD ≤ s.silenceDur + frameDur f)) := by
  refine ⟨?_, ?_, ?_⟩
  · intro c s f hf
    simp [stepFrame, hf]
  · intro c s f hf hsp
    simp [stepFrame, hf, hsp]
  · intro c s f hf hsp
    unfold stepFrame
    rw [if_neg (by simp [hf]), if_pos hsp]
    by_cases hth : SILENCE_THRESHOLD ≤ s.silenceDur + frameDur f
    · simp [hth, initState]
    · simp [hth]

/-- Witness for C3 (amended): a speaking state holding one second of
silence flips to not-speaking on one more silent second (threshold 1.5
reached), and a speech frame zeroes the silence clock. -/
theorem vad_flag_dynamics_witness :
    (stepFrame trivCollabs { buffer := [[0, 0]], isSpeaking := true, silenceDur := 1 }
      silFrame).1.isSpeaking = false ∧
    (stepFrame trivCollabs initState spFrame).1.silenceDur = 0 := by
  constructor
  · exact (vad_flag_dynamics.2.2 trivCollabs _ silFrame rfl rfl).mpr
      (by norm_num [silFrame, frameDur, frameSamples, SILENCE_THRESHOLD])
  · exact (vad_flag_dynamics.1 trivCollabs initState spFrame rfl).2

/-! ### Single-flight machinery for C1 -/

/-- At most one pipeline invocation and at most one egress job are open
in a trace prefix: ends never outnumber starts, and starts never exceed
ends by more than one. -/
def SingleFlight (t : List Event) : Prop :=
  t.count Event.pipelineEnd ≤ t.count Event.pipelineStart ∧
  t.count Event.pipelineStart ≤ t.count Event.pipelineEnd + 1 ∧
  t.count Event.egressEnd ≤ t.count Event.egressStart ∧
  t.count Event.egressStart ≤ t.count Event.egressEnd + 1

instance (t : List Event) : Decidable (SingleFlight t) := by
  unfold SingleFlight
  infer_instance

/-- The three event blocks a single loop iteration can emit: nothing, a
pipeline run with no egress, or a pipeline run followed by one egress
job.  The source awaits the whole turn before reading the next frame,
so these are exactly the contiguous chunks of the session trace. -/
def EventBlock (b : List Event) : Prop :=
  b = [] ∨ b = [Event.pipelineStart, Event.pipelineEnd] ∨
  b = [Event.pipelineStart, Event.pipelineEnd, Event.egressStart, Event.egressEnd]

theorem turnEvents_block (c : Collabs) (buffer : List (List Nat)) :
    EventBlock (turnEvents c buffer) := by
  unfold EventBlock turnEvents
  split
  · exact Or.inl rfl
  · match (process_speech c buffer).egressAudio with
    | some a => exact Or.inr (Or.inr rfl)
    | none => exact Or.inr (Or.inl rfl)

theorem stepFrame_block (c : Collabs) (s : SessionState) (f : Frame) :
    EventBlock (stepFrame c s f).2 := by
  unfold stepFrame
  by_cases h1 : f.speech = true
  · simp only [if_pos h1]
    exact Or.inl rfl
  · simp only [if_neg h1]
    by_cases h2 : s.isSpeaking = true
    · simp only [if_pos h2]
      by_cases h3 : SILENCE_THRESHOLD ≤ s.silenceDur + frameDur f
      · simp only [if_pos h3]
        exact turnEvents_block c (s.buffer ++ [f.data])
      · simp only [if_neg h3]
        exact Or.inl rfl
    · simp only [if_neg h2]
      exact Or.inl rfl

/-- Every prefix of a block is single-flight and a block is balanced,
so prefixing a block preserves prefix-single-flight. -/
theorem singleFlight_block_append (b t : List Event) (hb : EventBlock b)
    (ht : ∀ m, SingleFlight (t.take m)) : ∀ n, SingleFlight ((b ++ t).take n) := by
  intro n
  rw [List.take_append_eq_append_take]
  rcases Nat.lt_or_ge n b.length with hn | hn
  · have h0 : n - b.length = 0 := by omega
    rw [h0, List.take_zero, List.append_nil]
    rcases hb with hb | hb | hb <;> subst hb
    · simpa using ht 0
    · match n with
      | 0 => decide
      | 1 => decide
      | m + 2 => rw [List.take_of_length_le (by simp)]; decide
    · match n with
      | 0 => decide
      | 1 => decide
      | 2 => decide
      | 3 => decide
      | m + 4 => rw [List.take_of_length_le (by simp)]; decide
  · rw [List.take_of_length_le hn]
    have hbal : b.count Event.pipelineStart = b.count Event.pipelineEnd ∧
        b.count Event.egressStart = b.count Event.egressEnd := by
      rcases hb with hb | hb | hb <;> subst hb <;> exact ⟨by decide, by decide⟩
    obtain ⟨x1, x2, x3, x4⟩ := ht (n - b.length)
    unfold SingleFlight at *
    simp only [List.count_append]
    omega

/-- Prefix-single-flight for every session trace from every start
state. -/
theorem singleFlight_runTrace (c : Collabs) (fs : List Frame) :
    ∀ (s : SessionState) (n : Nat), SingleFlight ((runTrace c s fs).take n) := by
  induction fs with
  | nil => intro s n; simp only [runTrace, List.take_nil]; decide
  | cons f fs IH =>
      intro s n
      show SingleFlight (((stepFrame c s f).2 ++ runTrace c (stepFrame c s f).1 fs).take n)
      exact singleFlight_block_append _ _ (stepFrame_block c s f)
        (IH (stepFrame c s f).1) n

/-- Claim C1: at every point of every session execution — every prefix of the
event trace of every frame sequence, for every behaviour of the
collaborators, including ones that inject new speech onsets while a
turn is processing — at most one ResponsePipeline invocation and at
most one AudioEgress job are open.  The loop awaits each turn inline,
so pipeline and egress events of one turn are contiguous and a second
concurrent invocation can never start. -/
theorem single_flight_invariant (c : Collabs) (frames : List Frame) (n : Nat) :
    SingleFlight ((runTrace c initState frames).take n) :=
  singleFlight_runTrace c frames initState n

/-- Collaborators for the barge-in scenario: a working turn whose reply
is synthesized and emitted. -/
def cBarge : Collabs :=
  { sttRaw := .ok "bonjour tout le monde", ragDocs := .ok [], llmReply := .ok "x",
    ttsAudio := fun _ => some [1, 2], gIdx := 0, tIdx := 0, bIdx := 0 }

/-- Claim C4: the source has no cancellation path at all.  Failing input: one
speech onset, 1.5 s of silence (turn fires, reply emitted), then a new
speech onset injected while the reply is draining.  The trace shows the
egress job runs to completion (egressEnd is emitted, nothing can cancel
it — the loop only reads the injected onset after the turn finishes),
and the new onset merely begins accumulating a fresh buffer; there is
no cancellation before the final frame and no interruption of the
reply, contradicting the claim (the buffer/VAD reset part does hold,
via the finally block). -/
theorem barge_in_never_cancels_egress :
    runTrace cBarge initState [spFrame, silFrame, silFrame, spFrame] =
      [Event.pipelineStart, Event.pipelineEnd, Event.egressStart, Event.egressEnd] ∧
    runState cBarge initState [spFrame, silFrame, silFrame, spFrame] =
      { buffer := [[0, 0]], isSpeaking := true, silenceDur := 0 } := by
  constructor
  · norm_num [runTrace, stepFrame, frameDur, frameSamples, SILENCE_THRESHOLD, initState,
      spFrame, silFrame, turnEvents, cBarge]
    decide
  · norm_num [runState, stepFrame, frameDur, frameSamples, SILENCE_THRESHOLD, initState,
      spFrame, silFrame]

/-- The 40 header bytes before the data-chunk size field. -/
def wavPre (dataLen : Nat) : List Nat :=
  [82, 73, 70, 70] ++ le32 (36 + dataLen) ++ [87, 65, 86, 69] ++
  [102, 109, 116, 32] ++ le32 16 ++ le16 1 ++ le16 1 ++ le32 24000 ++
  le32 48000 ++ le16 2 ++ le16 16 ++ [100, 97, 116, 97]

theorem wavEncode_split (d : List Nat) :
    wavEncode d = wavPre d.length ++ (le32 d.length ++ d) := by
  simp [wavEncode, wavHeader, wavPre, List.append_assoc]

theorem wavPre_length (dataLen : Nat) : (wavPre dataLen).length = 40 := by
  simp [wavPre, le16, le32]

theorem readLE32_le32_append (n : Nat) (rest : List Nat) :
    readLE32 (le32 n ++ rest) = n % 256 + 256 * (n / 256 % 256) +
      256 ^ 2 * (n / 256 ^ 2 % 256) + 256 ^ 3 * (n / 256 ^ 3 % 256) := by
  have hcons : le32 n ++ rest = (n % 256) :: (n / 256 % 256) ::
      (n / 256 ^ 2 % 256) :: (n / 256 ^ 3 % 256) :: rest := by
    simp [le32]
  rw [hcons]
  rfl

/-- Decoding inverts encoding for data shorter than the 32-bit size
field allows. -/
theorem wavDecode_encode (d : List Nat) (h : d.length < 2 ^ 32) :
    wavDecode (wavEncode d) = d := by
  have h40 : (wavEncode d).drop 40 = le32 d.length ++ d := by
    rw [wavEncode_split, List.drop_left' (wavPre_length d.length)]
  have h44 : (wavEncode d).drop 44 = d := by
    rw [show (44 : Nat) = 40 + 4 from rfl, ← List.drop_drop, h40,
      List.drop_left' (by simp [le32])]
  have hr : readLE32 ((wavEncode d).drop 40) = d.length := by
    rw [h40, readLE32_le32_append]
    omega
  unfold wavDecode
  rw [h44, hr, List.take_of_length_le (le_refl d.length)]

/-- Claim C9: sealing a buffer fed frames A, B, C yields the WAV container of
their concatenation; decoding it recovers exactly A ++ B ++ C (same
bytes, order and count); the container header declares mono (channel
count 1 at offset 22), the fixed 24000 sample rate (offset 24) and 16
bits per sample (offset 34); sealing an empty buffer yields nothing. -/
theorem seal_roundtrip :
    (∀ A B C : List Nat, A.length + B.length + C.length < 2 ^ 32 →
      sealAndGet [A, B, C] = some (wavEncode (A ++ B ++ C)) ∧
      wavDecode (wavEncode (A ++ B ++ C)) = A ++ B ++ C) ∧
    (∀ d : List Nat, ((wavEncode d).drop 22).take 2 = le16 1 ∧
      ((wavEncode d).drop 24).take 4 = le32 24000 ∧
      ((wavEncode d).drop 34).take 2 = le16 16) ∧
    sealAndGet [] = none := by
  refine ⟨?_, ?_, rfl⟩
  · intro A B C h
    constructor
    · simp [sealAndGet, List.append_assoc]
    · exact wavDecode_encode (A ++ B ++ C) (by simp [List.length_append]; omega)
  · intro d
    have h22 : wavEncode d =
        ([82, 73, 70, 70] ++ le32 (36 + d.length) ++ [87, 65, 86, 69] ++
          [102, 109, 116, 32] ++ le32 16 ++ le16 1) ++
        (le16 1 ++ (le32 24000 ++ (le32 48000 ++ (le16 2 ++ (le16 16 ++
          ([100, 97, 116, 97] ++ (le32 d.length ++ d))))))) := by
      simp [wavEncode, wavHeader, List.append_assoc]
    have h24 : wavEncode d =
        ([82, 73, 70, 70] ++ le32 (36 + d.length) ++ [87, 65, 86, 69] ++
          [102, 109, 116, 32] ++ le32 16 ++ le16 1 ++ le16 1) ++
        (le32 24000 ++ (le32 48000 ++ (le16 2 ++ (le16 16 ++
          ([100, 97, 116, 97] ++ (le32 d.length ++ d)))))) := by
      simp [wavEncode, wavHeader, List.append_assoc]
    have h34 : wavEncode d =
        ([82, 73, 70, 70] ++ le32 (36 + d.length) ++ [87, 65, 86, 69] ++
          [102, 109, 116, 32] ++ le32 16 ++ le16 1 ++ le16 1 ++ le32 24000 ++
          le32 48000 ++ le16 2) ++
        (le16 16 ++ ([100, 97, 116, 97] ++ (le32 d.length ++ d))) := by
      simp [wavEncode, wavHeader, List.append_assoc]
    refine ⟨?_, ?_, ?_⟩
    · rw [h22, List.drop_left' (by simp [le16, le32]),
        List.take_left' (by simp [le16])]
    · rw [h24, List.drop_left' (by simp [le16, le32]),
        List.take_left' (by simp [le32])]
    · rw [h34, List.drop_left' (by simp [le16, le32]),
        List.take_left' (by simp [le16])]

/-- Witness for C9: three concrete two-byte frames round-trip through
the sealed container. -/
theorem seal_roundtrip_witness :
    sealAndGet [[1, 2], [3, 4], [5, 6]] = some (wavEncode ([1, 2] ++ [3, 4] ++ [5, 6])) ∧
    wavDecode (wavEncode ([1, 2] ++ [3, 4] ++ [5, 6])) = [1, 2] ++ [3, 4] ++ [5, 6] :=
  seal_roundtrip.1 [1, 2] [3, 4] [5, 6] (by norm_num)

end LKRag
